import Mathlib

/-!
Shallow embedding of the folo I/O runtime core: the once-event primitive
(`src/crates/folo/src/util/once_event.rs`) and the operation lifecycle manager
(`src/crates/folo/src/io/operation.rs`).

Wakers are modelled by an abstract type `W`; the effect of `Waker::wake` is
recorded as the list of wakers woken by a transition.  Panics (`panic!`,
`expect`, `assert!`) are modelled by returning `none`.
-/

namespace Folo

/-- The four states of `EventState<T>` in `once_event.rs`, with the waker type
abstracted as `W`. -/
inductive EventState (W T : Type) where
  | NotSet
  | Awaiting (waker : W)
  | Set (value : T)
  | Consumed
deriving DecidableEq, Repr

/-- `OnceEvent::set`: returns the new state and the list of wakers woken, or
`none` when the source panics (state `Set` or `Consumed`). -/
def OnceEvent.set {W T : Type} (state : EventState W T) (result : T) :
    Option (EventState W T × List W) :=
  match state with
  | .NotSet => some (.Set result, [])
  | .Awaiting waker => some (.Set result, [waker])
  | .Set _ => none
  | .Consumed => none

/-- `OnceEvent::poll`: returns the new state and `some result` when ready, or
`none` (outer) when the source panics (state `Consumed`). -/
def OnceEvent.poll {W T : Type} (state : EventState W T) (waker : W) :
    Option (EventState W T × Option T) :=
  match state with
  | .NotSet => some (.Awaiting waker, none)
  | .Awaiting _ => some (.Awaiting waker, none)
  | .Set result => some (.Consumed, some result)
  | .Consumed => none

/-- `OnceEvent::new`: initial state. -/
def OnceEvent.new {W T : Type} : EventState W T := .NotSet

/-- `task::Poll` as used by the receiver futures. -/
inductive Poll (T : Type) where
  | Ready (value : T)
  | Pending
deriving DecidableEq, Repr

/-- Wraps the `Option T` produced by `OnceEvent::poll` into `task::Poll`, as all
four receiver `Future::poll` impls do. -/
def pollWrap {W T : Type} (r : Option (EventState W T × Option T)) :
    Option (EventState W T × Poll T) :=
  match r with
  | none => none
  | some (s, some v) => some (s, .Ready v)
  | some (s, none) => some (s, .Pending)

/-- `RefSender::set` (borrowed flavor): delegates to the shared event state. -/
def RefSender.set {W T : Type} (s : EventState W T) (v : T) :
    Option (EventState W T × List W) :=
  OnceEvent.set s v

/-- `RefReceiver`'s `Future::poll` (borrowed flavor). -/
def RefReceiver.poll {W T : Type} (s : EventState W T) (w : W) :
    Option (EventState W T × Poll T) :=
  pollWrap (OnceEvent.poll s w)

/-- `RcSender::set` (shared-owned flavor): delegates to the shared event state. -/
def RcSender.set {W T : Type} (s : EventState W T) (v : T) :
    Option (EventState W T × List W) :=
  OnceEvent.set s v

/-- `RcReceiver`'s `Future::poll` (shared-owned flavor). -/
def RcReceiver.poll {W T : Type} (s : EventState W T) (w : W) :
    Option (EventState W T × Poll T) :=
  pollWrap (OnceEvent.poll s w)

/-- The sender of the raw-pointer flavor (third storage flavor in the source,
called *raw* in the spec): delegates to the shared event state. -/
def RawSender.set {W T : Type} (s : EventState W T) (v : T) :
    Option (EventState W T × List W) :=
  OnceEvent.set s v

/-- The receiver of the raw-pointer flavor: its `Future::poll`. -/
def RawReceiver.poll {W T : Type} (s : EventState W T) (w : W) :
    Option (EventState W T × Poll T) :=
  pollWrap (OnceEvent.poll s w)

/-- Modelled from the spec: `LocalCell` (from `util`, source not provided) is a
cell holding a value together with a small reference counter; `inc_ref`
increments it, `dec_ref` decrements it, and `is_referenced` is true exactly when
the counter is nonzero ("a small counter inside the storage cell, incremented on
construction of each end and decremented on drop or delivery; inertness =
counter at zero"). -/
structure LocalCell (A : Type) where
  value : A
  refs : Nat
deriving DecidableEq, Repr

/-- `LocalCell::new`. -/
def LocalCell.new {A : Type} (v : A) : LocalCell A := ⟨v, 0⟩

/-- `LocalCell::inc_ref`. -/
def LocalCell.inc_ref {A : Type} (c : LocalCell A) : LocalCell A :=
  { c with refs := c.refs + 1 }

/-- `LocalCell::dec_ref`. -/
def LocalCell.dec_ref {A : Type} (c : LocalCell A) : LocalCell A :=
  { c with refs := c.refs - 1 }

/-- `LocalCell::is_referenced`. -/
def LocalCell.is_referenced {A : Type} (c : LocalCell A) : Bool :=
  c.refs != 0

/-- `LocalCell::ref_count`. -/
def LocalCell.ref_count {A : Type} (c : LocalCell A) : Nat := c.refs

/-- `LocalCell::get`. -/
def LocalCell.get {A : Type} (c : LocalCell A) : A := c.value

/-- `OnceEventEmbeddedStorage<T>`: a `LocalCell` holding an optional event. -/
def OnceEventEmbeddedStorage (W T : Type) : Type :=
  LocalCell (Option (EventState W T))

/-- `OnceEventEmbeddedStorage::is_inert`. -/
def OnceEventEmbeddedStorage.is_inert {W T : Type}
    (s : OnceEventEmbeddedStorage W T) : Bool :=
  !(LocalCell.is_referenced s)

/-- `OnceEventEmbeddedStorage::ref_count`. -/
def OnceEventEmbeddedStorage.ref_count {W T : Type}
    (s : OnceEventEmbeddedStorage W T) : Nat :=
  LocalCell.ref_count s

/-- `OnceEvent::new_embedded`: the storage contents after creating the
sender/receiver pair — `LocalCell::new(Some(OnceEvent::new()))` followed by two
`inc_ref` calls (one for the sender, one for the receiver). -/
def OnceEvent.new_embedded (W T : Type) : OnceEventEmbeddedStorage W T :=
  LocalCell.inc_ref (LocalCell.inc_ref (LocalCell.new (some OnceEvent.new)))

/-- `EmbeddedSender::set`: sets the inner event (panicking, i.e. `none`, if the
event is absent or already set/consumed) and then drops one reference. -/
def EmbeddedSender.set {W T : Type} (storage : OnceEventEmbeddedStorage W T)
    (v : T) : Option (OnceEventEmbeddedStorage W T × List W) :=
  match LocalCell.get storage with
  | none => none
  | some ev =>
    match OnceEvent.set ev v with
    | none => none
    | some (ev', woken) =>
      some (LocalCell.dec_ref { storage with value := some ev' }, woken)

/-- `EmbeddedReceiver`'s `Future::poll`: polls the inner event; the reference
count is not touched by polling. -/
def EmbeddedReceiver.poll {W T : Type} (storage : OnceEventEmbeddedStorage W T)
    (w : W) : Option (OnceEventEmbeddedStorage W T × Poll T) :=
  match LocalCell.get storage with
  | none => none
  | some ev =>
    match OnceEvent.poll ev w with
    | none => none
    | some (ev', res) =>
      match res with
      | some v => some ({ storage with value := some ev' }, .Ready v)
      | none => some ({ storage with value := some ev' }, .Pending)

/-- `Drop for EmbeddedReceiver`: drops one reference. -/
def EmbeddedReceiver.drop {W T : Type} (storage : OnceEventEmbeddedStorage W T) :
    OnceEventEmbeddedStorage W T :=
  LocalCell.dec_ref storage

/-- Dropping an `EmbeddedSender`: the source defines no `Drop` impl for
`EmbeddedSender`, so dropping it without calling `set` leaves the storage
untouched. -/
def EmbeddedSender.drop {W T : Type} (storage : OnceEventEmbeddedStorage W T) :
    OnceEventEmbeddedStorage W T :=
  storage

/-- Storage states reachable from a freshly created embedded sender/receiver
pair by the operations the two ends expose. -/
inductive EmbReach (W T : Type) : OnceEventEmbeddedStorage W T → Prop where
  | init : EmbReach W T (OnceEvent.new_embedded W T)
  | senderSet {s s' : OnceEventEmbeddedStorage W T} {v : T} {woken : List W} :
      EmbReach W T s → EmbeddedSender.set s v = some (s', woken) →
      EmbReach W T s'
  | receiverPoll {s s' : OnceEventEmbeddedStorage W T} {w : W} {r : Poll T} :
      EmbReach W T s → EmbeddedReceiver.poll s w = some (s', r) →
      EmbReach W T s'
  | receiverDrop {s : OnceEventEmbeddedStorage W T} :
      EmbReach W T s → EmbReach W T (EmbeddedReceiver.drop s)
  | senderDrop {s : OnceEventEmbeddedStorage W T} :
      EmbReach W T s → EmbReach W T (EmbeddedSender.drop s)

/-!
Operation lifecycle manager (`operation.rs`).  Pool keys stand in for the
stable block addresses (`*mut OVERLAPPED` round-trips through the key of the
block it points at).  Buffer byte contents are not modelled; a `PinnedBuffer`
is its capacity and active length, which is what the lifecycle code reads and
writes.  Time is an abstract `Nat` parameter.
-/

/-- Modelled from the spec: `PinnedBuffer` (from `io`, source not provided) is
"a contiguous byte region with a fixed backing address ... carrying a logical
*active length* distinct from its capacity"; `len` returns the active length and
`set_len` updates it ("completion updates the active length to the number of
bytes actually transferred"). -/
structure PinnedBuffer where
  capacity : Nat
  len : Nat
deriving DecidableEq, Repr

/-- `PinnedBuffer::set_len`. -/
def PinnedBuffer.set_len (b : PinnedBuffer) (n : Nat) : PinnedBuffer :=
  { b with len := n }

/-- `u32::MAX`. -/
def U32_MAX : Nat := 4294967295

/-- `usize::MAX` (64-bit target). -/
def USIZE_MAX : Nat := 18446744073709551615

/-- The OS-facing `OVERLAPPED` header, with the anonymous union taken in its
`Offset`/`OffsetHigh` interpretation (the one the source uses). -/
structure OVERLAPPED where
  Internal : Nat := 0
  InternalHigh : Nat := 0
  Offset : Nat := 0
  OffsetHigh : Nat := 0
  hEvent : Nat := 0
deriving DecidableEq, Repr

/-- `OVERLAPPED_ENTRY` as consumed by `complete_operation`: the `lpOverlapped`
pointer is represented by the pool key of the block it points at. -/
structure OVERLAPPED_ENTRY where
  lpOverlapped : Nat
  dwNumberOfBytesTransferred : Nat
  Internal : Nat
deriving DecidableEq, Repr

/-- `io::Error`: the `Windows` variant carries an OS code, the `Winsock`
variant carries an API return code plus detail code. -/
inductive Error where
  | windows (code : Int)
  | winsock (code : Int) (detail : Nat)
deriving DecidableEq, Repr

/-- `ERROR_IO_PENDING` (as the code compared against in `begin`). -/
def ERROR_IO_PENDING : Int := 997

/-- `WSA_IO_PENDING`. -/
def WSA_IO_PENDING : Nat := 997

/-- `SOCKET_ERROR`. -/
def SOCKET_ERROR : Int := -1

/-- `STATUS_SUCCESS`. -/
def STATUS_SUCCESS : Int := 0

/-- The two error patterns `begin` treats as "operation started
asynchronously". -/
def isPendingSentinel : Error → Bool
  | .windows c => c == ERROR_IO_PENDING
  | .winsock c d => c == SOCKET_ERROR && d == WSA_IO_PENDING

/-- `io::OperationResult`: `Ok(buffer)` or `Err(OperationError { error, buffer })`. -/
inductive OperationResult where
  | ok (buffer : PinnedBuffer)
  | err (error : Error) (buffer : PinnedBuffer)
deriving DecidableEq, Repr

/-- `OperationCore` (`operation.rs`): the per-operation metadata block.  The
oneshot sender/receiver are modelled by presence flags (they matter only
through the `take().expect(...)` calls); `started` is an abstract timestamp. -/
structure OperationCore where
  overlapped : OVERLAPPED
  buffer : Option PinnedBuffer
  key : Nat
  immediate_bytes_transferred : Nat
  result_tx : Bool
  result_rx : Bool
  started : Option Nat
deriving DecidableEq, Repr

/-- `OperationCore::new`: clamps the buffer's active length to `u32::MAX`
before building the block, and initializes all other fields. -/
def OperationCore.new (key : Nat) (buffer : PinnedBuffer) : OperationCore :=
  let buffer := if buffer.len > U32_MAX then buffer.set_len U32_MAX else buffer
  { overlapped := {}
    buffer := some buffer
    key := key
    immediate_bytes_transferred := 0
    result_tx := true
    result_rx := true
    started := none }

/-- The pool of live metadata blocks (`items` of `OperationStore`), as an
association list from pool key to block. -/
abbrev OperationStore : Type := List (Nat × OperationCore)

/-- `OperationStore::is_empty`. -/
def OperationStore.is_empty (s : OperationStore) : Bool := s.isEmpty

/-- Looks up the block a pool key (standing in for an `OVERLAPPED` pointer)
designates. -/
def lookupCore : OperationStore → Nat → Option OperationCore
  | [], _ => none
  | (k', c) :: rest, k => if k' = k then some c else lookupCore rest k

/-- Replaces the block stored under a key (in-place mutation of the block the
pointer designates). -/
def updateCore : OperationStore → Nat → OperationCore → OperationStore
  | [], _, _ => []
  | (k', c) :: rest, k, c' =>
    if k' = k then (k', c') :: rest else (k', c) :: updateCore rest k c'

/-- `OperationStore::release`: asserts the key is not `usize::MAX`, then
removes the slot (removal of a never-allocated key is rejected by the slab
chain per the spec). -/
def OperationStore.release (s : OperationStore) (k : Nat) :
    Option OperationStore :=
  if k = USIZE_MAX then none
  else if (lookupCore s k).isSome then some (s.filter (fun p => p.1 ≠ k))
  else none

/-- `freshKey`: the pre-committed index handed out by `begin_insert` for a new
block (any key not already in use). -/
def freshKey (s : OperationStore) : Nat :=
  s.foldr (fun p acc => max (p.1 + 1) acc) 0

/-- `OperationStore::new_operation`: inserts a fresh block built from the
caller's buffer and returns its key with the updated pool. -/
def OperationStore.new_operation (s : OperationStore) (buffer : PinnedBuffer) :
    Nat × OperationStore :=
  let k := freshKey s
  (k, s ++ [(k, OperationCore.new k buffer)])

/-- `OperationStore::complete_immediately`: takes the buffer out of the block,
asserts the immediate-bytes value is at most the buffer's active length, sets
the active length to that value, sends `Ok(buffer)` through the block's
sender, and releases the slot.  Returns the value sent to the awaiter and the
pool afterwards; `none` models a panic (missing buffer or sender, failed
assertion). -/
def OperationStore.complete_immediately (s : OperationStore) (k : Nat) :
    Option (OperationResult × OperationStore) :=
  match lookupCore s k with
  | none => none
  | some core =>
    match core.buffer with
    | none => none
    | some buffer =>
      let bytes_transferred := core.immediate_bytes_transferred
      if bytes_transferred ≤ buffer.len then
        if core.result_tx then
          match OperationStore.release s k with
          | none => none
          | some s' =>
            some (.ok (buffer.set_len bytes_transferred), s')
        else none
      else none

/-- The `Internal as i32` conversion applied to an `OVERLAPPED_ENTRY`'s
`Internal` field (a `usize`) to produce an `NTSTATUS`. -/
def ntstatusOfUsize (n : Nat) : Int :=
  if n % 4294967296 < 2147483648 then ((n % 4294967296 : Nat) : Int)
  else ((n % 4294967296 : Nat) : Int) - 4294967296

/-- `OperationStore::complete_operation`: takes the buffer out of the block,
sets its active length to the transferred byte count, takes the start
timestamp (for the latency metric) and the sender, sends `Ok(buffer)` when the
status is `STATUS_SUCCESS` and otherwise an error carrying the status and the
buffer, then releases the slot.  Returns the value sent to the awaiter and the
pool afterwards; `none` models a panic. -/
def OperationStore.complete_operation (s : OperationStore)
    (entry : OVERLAPPED_ENTRY) : Option (OperationResult × OperationStore) :=
  let bytes_transferred := entry.dwNumberOfBytesTransferred
  let status := ntstatusOfUsize entry.Internal
  match lookupCore s entry.lpOverlapped with
  | none => none
  | some core =>
    match core.buffer with
    | none => none
    | some buffer =>
      let buffer := buffer.set_len bytes_transferred
      match core.started with
      | none => none
      | some _ =>
        if core.result_tx then
          match OperationStore.release s entry.lpOverlapped with
          | none => none
          | some s' =>
            if status ≠ STATUS_SUCCESS then
              some (.err (.windows status) buffer, s')
            else
              some (.ok buffer, s')
        else none

/-- The observable result of the submission closure handed to `begin`. -/
inductive SubmitResult where
  | ok
  | err (e : Error)
deriving DecidableEq, Repr

/-- What `begin` does after the closure returns: suspend awaiting the poller,
or resolve with an `OperationResult`. -/
inductive BeginOutcome where
  | pending
  | done (r : OperationResult)
deriving DecidableEq, Repr

/-- `Operation::begin` on the block under key `k`: takes the receiver out of
the block, records the start timestamp (`now`), runs the submission closure —
whose observable effect is its result `fres` and the final value
`immediateWritten` it leaves in the immediate-bytes cell — and branches: a
pending-async sentinel leaves the block with the OS; `Ok` runs
`complete_immediately`; any other error takes the buffer out, releases the
slot and resolves with the error paired with the buffer.  `none` models a
panic. -/
def Operation.begin (s : OperationStore) (k : Nat) (now : Nat)
    (fres : SubmitResult) (immediateWritten : Nat) :
    Option (BeginOutcome × OperationStore) :=
  match lookupCore s k with
  | none => none
  | some core =>
    if core.result_rx then
      let core := { core with
        result_rx := false
        started := some now
        immediate_bytes_transferred := immediateWritten }
      let s := updateCore s k core
      match fres with
      | .err e =>
        if isPendingSentinel e then
          some (.pending, s)
        else
          match core.buffer with
          | none => none
          | some buffer =>
            match OperationStore.release s k with
            | none => none
            | some s' => some (.done (.err e buffer), s')
      | .ok =>
        match OperationStore.complete_immediately s k with
        | none => none
        | some (r, s') => some (.done r, s')
    else none

/-- `Operation::set_offset`: writes the low 32 bits of the offset into
`Offset` and the high 32 bits into `OffsetHigh` (`usize` → `u32` casts
truncate modulo 2^32). -/
def Operation.set_offset (core : OperationCore) (offset : Nat) : OperationCore :=
  { core with overlapped := { core.overlapped with
      Offset := offset % 4294967296
      OffsetHigh := (offset / 4294967296) % 4294967296 } }

/-! Theorems. -/

/-- Setting through the embedded sender decrements the storage's reference
count by one. -/
theorem embeddedSender_set_ref_count {W T : Type}
    {s s' : OnceEventEmbeddedStorage W T} {v : T} {woken : List W}
    (h : EmbeddedSender.set s v = some (s', woken)) :
    OnceEventEmbeddedStorage.ref_count s'
      = OnceEventEmbeddedStorage.ref_count s - 1 := by
  obtain ⟨val, refs⟩ := s
  cases val with
  | none => simp [EmbeddedSender.set, LocalCell.get] at h
  | some ev =>
    cases hs : OnceEvent.set ev v with
    | none => simp [EmbeddedSender.set, LocalCell.get, hs] at h
    | some p =>
      obtain ⟨ev', wk⟩ := p
      simp only [EmbeddedSender.set, LocalCell.get, hs] at h
      simp only [Option.some.injEq, Prod.mk.injEq] at h
      obtain ⟨h1, -⟩ := h
      subst h1
      rfl

/-- Polling through the embedded receiver leaves the reference count
unchanged. -/
theorem embeddedReceiver_poll_ref_count {W T : Type}
    {s s' : OnceEventEmbeddedStorage W T} {w : W} {r : Poll T}
    (h : EmbeddedReceiver.poll s w = some (s', r)) :
    OnceEventEmbeddedStorage.ref_count s'
      = OnceEventEmbeddedStorage.ref_count s := by
  obtain ⟨val, refs⟩ := s
  cases val with
  | none => simp [EmbeddedReceiver.poll, LocalCell.get] at h
  | some ev =>
    cases hs : OnceEvent.poll ev w with
    | none => simp [EmbeddedReceiver.poll, LocalCell.get, hs] at h
    | some p =>
      obtain ⟨ev', res⟩ := p
      cases res with
      | some v =>
        simp only [EmbeddedReceiver.poll, LocalCell.get, hs] at h
        simp only [Option.some.injEq, Prod.mk.injEq] at h
        obtain ⟨h1, -⟩ := h
        subst h1
        rfl
      | none =>
        simp only [EmbeddedReceiver.poll, LocalCell.get, hs] at h
        simp only [Option.some.injEq, Prod.mk.injEq] at h
        obtain ⟨h1, -⟩ := h
        subst h1
        rfl

/-- C1: for every once-event, in each of the four storage flavors (borrowed,
shared-owned, raw, embedded), set-then-poll yields ready with the set value,
and poll-then-set registers the wake handle, the set wakes exactly that
handle, and the subsequent poll yields ready with the value. -/
theorem c1_once_event_round_trip (T W : Type) (v : T) (w w' : W) :
    (RefSender.set (OnceEvent.new (W := W)) v = some (.Set v, []) ∧
      RefReceiver.poll (EventState.Set (W := W) v) w
        = some (.Consumed, .Ready v)) ∧
    (RefReceiver.poll (OnceEvent.new (T := T)) w
        = some (.Awaiting w, .Pending) ∧
      RefSender.set (EventState.Awaiting (T := T) w) v
        = some (.Set v, [w]) ∧
      RefReceiver.poll (EventState.Set (W := W) v) w'
        = some (.Consumed, .Ready v)) ∧
    (RcSender.set (OnceEvent.new (W := W)) v = some (.Set v, []) ∧
      RcReceiver.poll (EventState.Set (W := W) v) w
        = some (.Consumed, .Ready v)) ∧
    (RcReceiver.poll (OnceEvent.new (T := T)) w
        = some (.Awaiting w, .Pending) ∧
      RcSender.set (EventState.Awaiting (T := T) w) v
        = some (.Set v, [w]) ∧
      RcReceiver.poll (EventState.Set (W := W) v) w'
        = some (.Consumed, .Ready v)) ∧
    (RawSender.set (OnceEvent.new (W := W)) v = some (.Set v, []) ∧
      RawReceiver.poll (EventState.Set (W := W) v) w
        = some (.Consumed, .Ready v)) ∧
    (RawReceiver.poll (OnceEvent.new (T := T)) w
        = some (.Awaiting w, .Pending) ∧
      RawSender.set (EventState.Awaiting (T := T) w) v
        = some (.Set v, [w]) ∧
      RawReceiver.poll (EventState.Set (W := W) v) w'
        = some (.Consumed, .Ready v)) ∧
    (EmbeddedSender.set (OnceEvent.new_embedded W T) v
        = some (⟨some (.Set v), 1⟩, []) ∧
      EmbeddedReceiver.poll (⟨some (.Set v), 1⟩ : OnceEventEmbeddedStorage W T) w
        = some (⟨some .Consumed, 1⟩, .Ready v)) ∧
    (EmbeddedReceiver.poll (OnceEvent.new_embedded W T) w
        = some (⟨some (.Awaiting w), 2⟩, .Pending) ∧
      EmbeddedSender.set
          (⟨some (.Awaiting w), 2⟩ : OnceEventEmbeddedStorage W T) v
        = some (⟨some (.Set v), 1⟩, [w]) ∧
      EmbeddedReceiver.poll
          (⟨some (.Set v), 1⟩ : OnceEventEmbeddedStorage W T) w'
        = some (⟨some .Consumed, 1⟩, .Ready v)) :=
  ⟨⟨rfl, rfl⟩, ⟨rfl, rfl, rfl⟩, ⟨rfl, rfl⟩, ⟨rfl, rfl, rfl⟩, ⟨rfl, rfl⟩,
    ⟨rfl, rfl, rfl⟩, ⟨rfl, rfl⟩, ⟨rfl, rfl, rfl⟩⟩

/-- C2: `set` panics exactly when the state is `Set` or `Consumed`, and `poll`
panics exactly when the state is `Consumed`; no other transition of the event
state machine panics. -/
theorem c2_once_event_panics (T W : Type) (s : EventState W T) (v : T) (w : W) :
    (OnceEvent.set s v = none ↔
      (∃ x, s = EventState.Set x) ∨ s = EventState.Consumed) ∧
    (OnceEvent.poll s w = none ↔ s = EventState.Consumed) := by
  cases s <;> simp [OnceEvent.set, OnceEvent.poll]

/-- C8: polling in the waiting state with a new handle yields not-ready and
replaces the stored handle with the new one; a subsequent set wakes exactly
the most recently registered handle. -/
theorem c8_repoll_replaces_waker (T W : Type) (w w' : W) (v : T) :
    OnceEvent.poll (EventState.Awaiting (T := T) w) w'
      = some (.Awaiting w', none) ∧
    OnceEvent.set (EventState.Awaiting (T := T) w') v
      = some (.Set v, [w']) :=
  ⟨rfl, rfl⟩

/-- C7 counterexample: the source defines no `Drop` impl for `EmbeddedSender`,
so dropping the sender end without delivering a value does not decrement the
reference count — after dropping both ends of a fresh pair the count is 1, not
0, and the storage is not inert, contradicting "each end decrements it on
drop or on value delivery". -/
theorem c7_counterexample :
    EmbeddedSender.drop (OnceEvent.new_embedded Nat Nat)
      = OnceEvent.new_embedded Nat Nat ∧
    (OnceEvent.new_embedded Nat Nat).ref_count = 2 ∧
    ¬ ((EmbeddedSender.drop (OnceEvent.new_embedded Nat Nat)).ref_count
        = 2 - 1) ∧
    (EmbeddedReceiver.drop
        (EmbeddedSender.drop (OnceEvent.new_embedded Nat Nat))).ref_count = 1 ∧
    (EmbeddedReceiver.drop
        (EmbeddedSender.drop (OnceEvent.new_embedded Nat Nat))).is_inert
      = false := by
  refine ⟨rfl, rfl, by decide, rfl, rfl⟩

/-- C7 (amended): the embedded reference count is 2 after creating the pair,
never exceeds 2 over any sequence of end operations, the sender end decrements
it on value delivery, the receiver end decrements it on drop (the sender end
does not decrement on a drop without delivery), the storage is inert exactly
when the count is zero, and after the sender delivers and the receiver is
dropped the storage is inert. -/
theorem c7_embedded_ref_count (W T : Type) :
    (OnceEvent.new_embedded W T).ref_count = 2 ∧
    (∀ s : OnceEventEmbeddedStorage W T, EmbReach W T s →
      OnceEventEmbeddedStorage.ref_count s ≤ 2) ∧
    (∀ s : OnceEventEmbeddedStorage W T,
      OnceEventEmbeddedStorage.is_inert s = true ↔
        OnceEventEmbeddedStorage.ref_count s = 0) ∧
    (∀ (s s' : OnceEventEmbeddedStorage W T) (v : T) (woken : List W),
      EmbeddedSender.set s v = some (s', woken) →
        OnceEventEmbeddedStorage.ref_count s'
          = OnceEventEmbeddedStorage.ref_count s - 1) ∧
    (∀ s : OnceEventEmbeddedStorage W T,
      OnceEventEmbeddedStorage.ref_count (EmbeddedReceiver.drop s)
        = OnceEventEmbeddedStorage.ref_count s - 1) ∧
    (∀ (s' : OnceEventEmbeddedStorage W T) (v : T) (woken : List W),
      EmbeddedSender.set (OnceEvent.new_embedded W T) v = some (s', woken) →
        (EmbeddedReceiver.drop s').is_inert = true) := by
  refine ⟨rfl, ?_, ?_, ?_, ?_, ?_⟩
  · intro s h
    induction h with
    | init => exact le_refl 2
    | senderSet _ heq ih =>
      rw [embeddedSender_set_ref_count heq]
      omega
    | receiverPoll _ heq ih =>
      rw [embeddedReceiver_poll_ref_count heq]
      exact ih
    | receiverDrop _ ih =>
      simp only [EmbeddedReceiver.drop, LocalCell.dec_ref,
        OnceEventEmbeddedStorage.ref_count, LocalCell.ref_count] at *
      omega
    | senderDrop _ ih => exact ih
  · intro s
    simp [OnceEventEmbeddedStorage.is_inert, LocalCell.is_referenced,
      OnceEventEmbeddedStorage.ref_count, LocalCell.ref_count]
  · intro s s' v woken h
    exact embeddedSender_set_ref_count h
  · intro s
    rfl
  · intro s' v woken h
    have e : EmbeddedSender.set (OnceEvent.new_embedded W T) v
        = some (⟨some (.Set v), 1⟩, ([] : List W)) := rfl
    rw [e] at h
    simp only [Option.some.injEq, Prod.mk.injEq] at h
    obtain ⟨h1, -⟩ := h
    subst h1
    rfl

/-- C7 witness: the amended theorem evaluated on the concrete embedded event
of end-to-end scenario 4 (value 42): fresh count 2, reachable states bounded
by 2, delivery then receiver drop leaves inert storage. -/
theorem c7_embedded_ref_count_witness :
    (OnceEvent.new_embedded Nat Nat).ref_count = 2 ∧
    (OnceEvent.new_embedded Nat Nat).ref_count ≤ 2 ∧
    ((EmbeddedReceiver.drop
        (⟨some (.Set 42), 1⟩ : OnceEventEmbeddedStorage Nat Nat)).is_inert
      = true) :=
  ⟨(c7_embedded_ref_count Nat Nat).1,
    (c7_embedded_ref_count Nat Nat).2.1 _ (EmbReach.init),
    (c7_embedded_ref_count Nat Nat).2.2.2.2.2 _ 42 [] rfl⟩

/-- C3: when the submission closure returns an error other than the
pending-async sentinel, `begin` extracts the buffer held in the metadata block
(so its active length is exactly what it was at submission), releases the
block's pool slot, and resolves with the error paired with that buffer; with
no other outstanding operations the pool is empty afterwards. -/
theorem c3_rejected_submission (b : PinnedBuffer) (e : Error) (now imm : Nat)
    (h : isPendingSentinel e = false) :
    ∃ bufSub : PinnedBuffer,
      (OperationCore.new 0 b).buffer = some bufSub ∧
      Operation.begin (OperationStore.new_operation [] b).2
          (OperationStore.new_operation [] b).1 now (SubmitResult.err e) imm
        = some (BeginOutcome.done (OperationResult.err e bufSub), []) ∧
      OperationStore.is_empty [] = true := by
  refine ⟨if b.len > U32_MAX then b.set_len U32_MAX else b, rfl, ?_, rfl⟩
  simp [Operation.begin, OperationStore.new_operation, freshKey, lookupCore,
    updateCore, OperationCore.new, OperationStore.release, h, USIZE_MAX,
    OperationStore.is_empty]

/-- C3 witness: end-to-end scenario 3 — a 32-byte buffer, the closure rejects
with error code 5; the awaiter gets the error with the unchanged 32-byte
buffer and the pool is empty. -/
theorem c3_rejected_submission_witness :
    isPendingSentinel (Error.windows 5) = false ∧
    ∃ bufSub : PinnedBuffer,
      (OperationCore.new 0 ⟨32, 32⟩).buffer = some bufSub ∧
      Operation.begin (OperationStore.new_operation [] ⟨32, 32⟩).2
          (OperationStore.new_operation [] ⟨32, 32⟩).1 0
          (SubmitResult.err (Error.windows 5)) 0
        = some (BeginOutcome.done
            (OperationResult.err (Error.windows 5) bufSub), []) ∧
      OperationStore.is_empty [] = true :=
  ⟨by decide, c3_rejected_submission ⟨32, 32⟩ (Error.windows 5) 0 0 (by decide)⟩

/-- C4 counterexample: `complete_immediately` asserts the immediate-bytes
value against the buffer's *active length*, not its capacity.  With a buffer
of capacity 2 and active length 1 and immediate-bytes value 2, the value is at
most the capacity — so under the claim the assertion passes, `ok(buffer)` is
sent and the slot is released — yet the code panics (result `none`). -/
theorem c4_counterexample :
    OperationStore.complete_immediately
        [(0, { overlapped := {}, buffer := some ⟨2, 1⟩, key := 0,
               immediate_bytes_transferred := 2, result_tx := true,
               result_rx := false, started := some 0 })] 0
      = none ∧
    ((2 : Nat) ≤ (⟨2, 1⟩ : PinnedBuffer).capacity) := by
  exact ⟨rfl, by decide⟩

/-- C4 (amended): when the immediate-bytes value is at most the buffer's
*active length* (the quantity the source's assertion actually checks, which is
at most the capacity), `complete_immediately` moves the buffer out with its
active length set to that value, sends `ok(buffer)` through the event, and
releases the pool slot. -/
theorem c4_sync_completion (k : Nat) (core : OperationCore) (b : PinnedBuffer)
    (hb : core.buffer = some b) (htx : core.result_tx = true)
    (hn : core.immediate_bytes_transferred ≤ b.len) (hk : k ≠ USIZE_MAX) :
    OperationStore.complete_immediately [(k, core)] k
      = some (OperationResult.ok
          (b.set_len core.immediate_bytes_transferred), []) ∧
    (b.set_len core.immediate_bytes_transferred).len
      = core.immediate_bytes_transferred := by
  constructor
  · simp [OperationStore.complete_immediately, lookupCore, hb, htx, hn,
      OperationStore.release, hk]
  · rfl

/-- C4 witness: end-to-end scenario 1 — a 64-byte buffer and immediate-bytes
value 64; the awaiter receives success with a 64-byte buffer and the pool is
empty. -/
theorem c4_sync_completion_witness :
    ({ overlapped := {}, buffer := some ⟨64, 64⟩, key := 0,
       immediate_bytes_transferred := 64, result_tx := true,
       result_rx := false, started := some 0 } : OperationCore).buffer
        = some ⟨64, 64⟩ ∧
    (64 : Nat) ≤ (64 : Nat) ∧ (0 : Nat) ≠ USIZE_MAX ∧
    (OperationStore.complete_immediately
        [(0, { overlapped := {}, buffer := some ⟨64, 64⟩, key := 0,
               immediate_bytes_transferred := 64, result_tx := true,
               result_rx := false, started := some 0 })] 0
      = some (OperationResult.ok
          (PinnedBuffer.set_len ⟨64, 64⟩ 64), []) ∧
    (PinnedBuffer.set_len ⟨64, 64⟩ 64).len = 64) :=
  ⟨rfl, by decide, by decide,
    c4_sync_completion 0 _ ⟨64, 64⟩ rfl rfl (by decide) (by decide)⟩

/-- C5: for a poller-delivered completion, if the status is `STATUS_SUCCESS`
the awaiter receives `ok` with the buffer whose active length equals the
transferred byte count, otherwise an error carrying the OS status together
with the buffer; in both cases the pool slot is released. -/
theorem c5_async_completion (k : Nat) (core : OperationCore) (b : PinnedBuffer)
    (bytes internalStatus t : Nat)
    (hb : core.buffer = some b) (hst : core.started = some t)
    (htx : core.result_tx = true) (hk : k ≠ USIZE_MAX) :
    OperationStore.complete_operation [(k, core)]
        ⟨k, bytes, internalStatus⟩
      = some ((if ntstatusOfUsize internalStatus ≠ STATUS_SUCCESS
               then OperationResult.err
                      (.windows (ntstatusOfUsize internalStatus))
                      (b.set_len bytes)
               else OperationResult.ok (b.set_len bytes)), []) ∧
    (b.set_len bytes).len = bytes := by
  constructor
  · by_cases hstat : ntstatusOfUsize internalStatus = STATUS_SUCCESS <;>
      simp [OperationStore.complete_operation, lookupCore, hb, hst, htx,
        OperationStore.release, hk, hstat]
  · rfl

/-- C5 witness: end-to-end scenario 2 — a 128-byte buffer, the poller fires
with byte count 40 and success status; the awaiter receives success with a
40-byte active region and the pool is empty. -/
theorem c5_async_completion_witness :
    ({ overlapped := {}, buffer := some ⟨128, 128⟩, key := 0,
       immediate_bytes_transferred := 0, result_tx := true,
       result_rx := false, started := some 3 } : OperationCore).buffer
        = some ⟨128, 128⟩ ∧
    (0 : Nat) ≠ USIZE_MAX ∧
    (OperationStore.complete_operation
        [(0, { overlapped := {}, buffer := some ⟨128, 128⟩, key := 0,
               immediate_bytes_transferred := 0, result_tx := true,
               result_rx := false, started := some 3 })] ⟨0, 40, 0⟩
      = some ((if ntstatusOfUsize 0 ≠ STATUS_SUCCESS
               then OperationResult.err (.windows (ntstatusOfUsize 0))
                      (PinnedBuffer.set_len ⟨128, 128⟩ 40)
               else OperationResult.ok (PinnedBuffer.set_len ⟨128, 128⟩ 40)),
          []) ∧
    (PinnedBuffer.set_len ⟨128, 128⟩ 40).len = 40) :=
  ⟨rfl, by decide,
    c5_async_completion 0 _ ⟨128, 128⟩ 40 0 3 rfl rfl rfl (by decide)⟩

/-- C6: `OperationCore::new` clamps a buffer whose active length exceeds
`u32::MAX` = 2^32 − 1 to exactly that limit before building the block, and
leaves a buffer whose active length is at most the limit unchanged. -/
theorem c6_clamp (k : Nat) (b : PinnedBuffer) :
    U32_MAX = 2 ^ 32 - 1 ∧
    (b.len > U32_MAX →
      (OperationCore.new k b).buffer = some (b.set_len U32_MAX)) ∧
    (b.len ≤ U32_MAX → (OperationCore.new k b).buffer = some b) := by
  refine ⟨by norm_num [U32_MAX], fun h => ?_, fun h => ?_⟩
  · simp [OperationCore.new, h]
  · simp [OperationCore.new, Nat.not_lt.mpr h]

/-- C6 witness: a buffer of active length 5000000000 is clamped to
4294967295; a 32-byte buffer is unchanged. -/
theorem c6_clamp_witness :
    ((⟨6000000000, 5000000000⟩ : PinnedBuffer).len > U32_MAX ∧
      (OperationCore.new 0 ⟨6000000000, 5000000000⟩).buffer
        = some (PinnedBuffer.set_len ⟨6000000000, 5000000000⟩ U32_MAX)) ∧
    ((⟨32, 32⟩ : PinnedBuffer).len ≤ U32_MAX ∧
      (OperationCore.new 0 ⟨32, 32⟩).buffer = some ⟨32, 32⟩) :=
  ⟨⟨by decide, (c6_clamp 0 ⟨6000000000, 5000000000⟩).2.1 (by decide)⟩,
    ⟨by decide, (c6_clamp 0 ⟨32, 32⟩).2.2 (by decide)⟩⟩

/-- C9: `set_offset` writes the low 32 bits of the offset into `Offset` and
the high 32 bits into `OffsetHigh`, so `Offset + 2^32 · OffsetHigh` equals
the offset (for any `usize` offset, i.e. below 2^64); no other field of the
block is modified. -/
theorem c9_set_offset (core : OperationCore) (offset : Nat)
    (h : offset < 2 ^ 64) :
    (Operation.set_offset core offset).overlapped.Offset = offset % 2 ^ 32 ∧
    (Operation.set_offset core offset).overlapped.OffsetHigh
      = offset / 2 ^ 32 ∧
    (Operation.set_offset core offset).overlapped.Offset
        + 2 ^ 32 * (Operation.set_offset core offset).overlapped.OffsetHigh
      = offset ∧
    (Operation.set_offset core offset).overlapped.Internal
      = core.overlapped.Internal ∧
    (Operation.set_offset core offset).overlapped.InternalHigh
      = core.overlapped.InternalHigh ∧
    (Operation.set_offset core offset).overlapped.hEvent
      = core.overlapped.hEvent ∧
    (Operation.set_offset core offset).buffer = core.buffer ∧
    (Operation.set_offset core offset).key = core.key ∧
    (Operation.set_offset core offset).immediate_bytes_transferred
      = core.immediate_bytes_transferred ∧
    (Operation.set_offset core offset).result_tx = core.result_tx ∧
    (Operation.set_offset core offset).result_rx = core.result_rx ∧
    (Operation.set_offset core offset).started = core.started := by
  have h32 : (4294967296 : Nat) = 2 ^ 32 := by norm_num
  have hd : offset / 2 ^ 32 < 2 ^ 32 := by
    apply Nat.div_lt_of_lt_mul
    calc offset < 2 ^ 64 := h
      _ = 2 ^ 32 * 2 ^ 32 := by norm_num
  refine ⟨by simp [Operation.set_offset, h32], ?_, ?_, rfl, rfl, rfl, rfl,
    rfl, rfl, rfl, rfl, rfl⟩
  · show (offset / 4294967296) % 4294967296 = offset / 2 ^ 32
    rw [h32, Nat.mod_eq_of_lt hd]
  · show offset % 4294967296
        + 2 ^ 32 * ((offset / 4294967296) % 4294967296) = offset
    rw [h32, Nat.mod_eq_of_lt hd, Nat.mod_add_div offset (2 ^ 32)]

/-- C9 witness: offset 2^32 + 5 splits into `Offset` 5 and `OffsetHigh` 1 and
recombines exactly. -/
theorem c9_set_offset_witness :
    (4294967301 : Nat) < 2 ^ 64 ∧
    ((Operation.set_offset
        ({ overlapped := {}, buffer := none, key := 0,
           immediate_bytes_transferred := 0, result_tx := false,
           result_rx := false, started := none } : OperationCore)
        4294967301).overlapped.Offset
        + 2 ^ 32 * (Operation.set_offset
            ({ overlapped := {}, buffer := none, key := 0,
               immediate_bytes_transferred := 0, result_tx := false,
               result_rx := false, started := none } : OperationCore)
            4294967301).overlapped.OffsetHigh
      = 4294967301) :=
  ⟨by norm_num,
    (c9_set_offset _ 4294967301 (by norm_num)).2.2.1⟩

/-- C10: a freshly allocated block's immediate-bytes cell holds 0, so a
submission closure that returns ok without writing the cell makes the awaiter
receive success with a buffer of active length 0. -/
theorem c10_immediate_bytes_init (b : PinnedBuffer) (k now : Nat) :
    (OperationCore.new k b).immediate_bytes_transferred = 0 ∧
    Operation.begin (OperationStore.new_operation [] b).2
        (OperationStore.new_operation [] b).1 now SubmitResult.ok 0
      = some (BeginOutcome.done (OperationResult.ok ⟨b.capacity, 0⟩), []) := by
  constructor
  · rfl
  · by_cases hlen : b.len > U32_MAX <;>
      simp [Operation.begin, OperationStore.new_operation, freshKey,
        lookupCore, updateCore, OperationCore.new,
        OperationStore.complete_immediately, OperationStore.release,
        USIZE_MAX, PinnedBuffer.set_len, hlen]

end Folo
